import Mathlib

/-!
Shallow embedding of the Device Discovery Engine of `src/network/discovery.rs`
(q8-caster). Machine integers are modelled as `Nat` (ports) and `Int`
(timestamps in seconds, mirroring `chrono::DateTime` compared through
`signed_duration_since(..).num_seconds()`). The concurrent registry
(`DashMap<String, DiscoveredDevice>`) is modelled as an association list with
the same insert/update/remove semantics; time is passed explicitly as a `now`
argument wherever the source calls `Utc::now()`.
-/

namespace Q8Caster

/-- Embeds `DeviceType` — `src/network/discovery.rs` lines 19-27. -/
inductive DeviceType where
  | Chromecast
  | FireTv
  | AirPlay
  | Dlna
  | Upnp
  | Miracast
  | Custom (s : String)
deriving DecidableEq, Repr

/-- Embeds `DeviceType::from_service_type` — lines 30-38. -/
def DeviceType.from_service_type (service_type : String) : DeviceType :=
  if service_type = "_googlecast._tcp.local." then DeviceType.Chromecast
  else if service_type = "_airplay._tcp.local." then DeviceType.AirPlay
  else if service_type = "_dlna._tcp.local." then DeviceType.Dlna
  else if service_type = "_dial._tcp.local." then DeviceType.FireTv
  else DeviceType.Custom service_type

/-- Embeds `DeviceType::to_mdns_service` — lines 40-50. -/
def DeviceType.to_mdns_service : DeviceType → String
  | DeviceType.Chromecast => "_googlecast._tcp.local."
  | DeviceType.AirPlay => "_airplay._tcp.local."
  | DeviceType.Dlna => "_dlna._tcp.local."
  | DeviceType.FireTv => "_dial._tcp.local."
  | DeviceType.Upnp => "_upnp._tcp.local."
  | DeviceType.Miracast => "_miracast._tcp.local."
  | DeviceType.Custom s => s

/-- Embeds `DeviceCapabilities` — lines 55-63. -/
structure DeviceCapabilities where
  can_video : Bool
  can_audio : Bool
  can_image : Bool
  can_mirror : Bool
  supported_codecs : List String
  max_resolution : Option String
  protocols : List String
deriving DecidableEq, Repr

/-- Embeds `impl Default for DeviceCapabilities` — lines 65-77. -/
def DeviceCapabilities.default : DeviceCapabilities :=
  { can_video := true
    can_audio := true
    can_image := true
    can_mirror := false
    supported_codecs := ["h264", "aac"]
    max_resolution := some "1080p"
    protocols := [] }

/-- JSON metadata restricted to what discovery writes: a string-valued object,
modelled as an association list in insertion order (`metadata[key] = value`
overwrites in place). -/
abbrev Metadata := List (String × String)

/-- Embeds `metadata[key] = json!(value)` on a JSON object: overwrite the key in
place if present, else append. -/
def jsonSet (m : Metadata) (k v : String) : Metadata :=
  if (m.find? (fun e => e.1 == k)).isSome then
    m.map (fun e => if e.1 == k then (k, v) else e)
  else
    m ++ [(k, v)]

/-- Embeds `DiscoveredDevice` — lines 81-91. `ip` is the `Display` rendering of the
`IpAddr`; timestamps are seconds. -/
structure DiscoveredDevice where
  id : String
  name : String
  device_type : DeviceType
  ip : String
  port : Nat
  capabilities : DeviceCapabilities
  discovered_at : Int
  last_seen : Int
  metadata : Metadata
deriving DecidableEq, Repr

/-- Embeds `DiscoveredDevice::new` — lines 94-113 (`now = Utc::now()` passed in). -/
def DiscoveredDevice.new (id name : String) (device_type : DeviceType)
    (ip : String) (port : Nat) (now : Int) : DiscoveredDevice :=
  { id := id
    name := name
    device_type := device_type
    ip := ip
    port := port
    capabilities := DeviceCapabilities.default
    discovered_at := now
    last_seen := now
    metadata := [] }

/-- Embeds `DiscoveredDevice::update_last_seen` — lines 115-117. -/
def DiscoveredDevice.update_last_seen (d : DiscoveredDevice) (now : Int) :
    DiscoveredDevice :=
  { d with last_seen := now }

/-- Embeds `DiscoveredDevice::is_stale` — lines 119-123:
`Utc::now().signed_duration_since(last_seen).num_seconds() > timeout`. -/
def DiscoveredDevice.is_stale (d : DiscoveredDevice) (timeout_secs : Int)
    (now : Int) : Bool :=
  now - d.last_seen > timeout_secs

/-- The `DashMap<String, DiscoveredDevice>` registry, as an association
list. -/
abbrev Registry := List (String × DiscoveredDevice)

/-- Embeds `devices.get(&id)` / `devices.get_mut(&id)` lookup. -/
def registryGet (r : Registry) (id : String) : Option DiscoveredDevice :=
  match r.find? (fun e => e.1 == id) with
  | some e => some e.2
  | none => none

/-- Embeds `devices.insert(id, d)`: replace the value if the key is present, else
add the entry. -/
def registryInsert (r : Registry) (id : String) (d : DiscoveredDevice) :
    Registry :=
  if (r.find? (fun e => e.1 == id)).isSome then
    r.map (fun e => if e.1 == id then (id, d) else e)
  else
    r ++ [(id, d)]

/-- In-place mutation through `devices.get_mut(&id)`. -/
def registryUpdate (r : Registry) (id : String)
    (f : DiscoveredDevice → DiscoveredDevice) : Registry :=
  r.map (fun e => if e.1 == id then (e.1, f e.2) else e)

/-- Embeds `devices.remove(&id)`. -/
def registryRemove (r : Registry) (id : String) : Registry :=
  r.filter (fun e => e.1 ≠ id)

/-- Embeds `DeviceDiscovery::get_devices` — lines 522-524. -/
def get_devices (r : Registry) : List DiscoveredDevice :=
  r.map (fun e => e.2)

/-- Embeds `DeviceDiscovery::get_devices_by_type` — lines 527-533. -/
def get_devices_by_type (r : Registry) (device_type : DeviceType) :
    List DiscoveredDevice :=
  (r.filter (fun e => e.2.device_type == device_type)).map (fun e => e.2)

/-- Embeds `DeviceDiscovery::get_device` — lines 536-538. -/
def get_device (r : Registry) (id : String) : Option DiscoveredDevice :=
  registryGet r id

/-- Embeds `str::trim_end_matches('.')`: drop every trailing dot. -/
def trimTrailingDots (s : String) : String :=
  String.mk ((s.toList.reverse.dropWhile (fun c => c == '.')).reverse)

/-- Resolved-service information extracted from `mdns_sd::ServiceInfo`:
fullname, hostname, port, addresses (in iteration order, `Display`ed), and
TXT properties. -/
structure ResolvedInfo where
  fullname : String
  hostname : String
  port : Nat
  addresses : List String
  properties : List (String × String)
deriving DecidableEq, Repr

/-- Embeds `mdns_sd::ServiceEvent`, with only the payload discovery reads. -/
inductive ServiceEvent where
  | serviceResolved (info : ResolvedInfo)
  | serviceFound (ty fullname : String)
  | serviceRemoved (ty fullname : String)
  | searchStarted (ty : String)
  | searchStopped (ty : String)
deriving DecidableEq, Repr

/-- The composite id the mDNS watcher derives — line 224:
`format!("{}:{}:{}", service, hostname, port)`. -/
def mdnsDeviceId (device_type : DeviceType) (info : ResolvedInfo) : String :=
  device_type.to_mdns_service ++ ":" ++ info.hostname ++ ":" ++
    toString info.port

/-- TXT-record metadata — lines 250-253: fold `metadata[key] = val` over the
properties. -/
def buildMetadata (props : List (String × String)) : Metadata :=
  props.foldl (fun m p => jsonSet m p.1 p.2) []

/-- First-sight capability assignment — lines 257-286: the `match` on the
watcher's `device_type`. -/
def mdnsCapabilities : DeviceType → DeviceCapabilities
  | DeviceType.Chromecast =>
    { can_video := true
      can_audio := true
      can_image := true
      can_mirror := true
      supported_codecs := ["h264", "vp8", "vp9", "aac", "opus"]
      max_resolution := some "4K"
      protocols := ["cast"] }
  | DeviceType.FireTv =>
    { can_video := true
      can_audio := true
      can_image := true
      can_mirror := true
      supported_codecs := ["h264", "h265", "aac"]
      max_resolution := some "4K"
      protocols := ["dial", "miracast"] }
  | DeviceType.AirPlay =>
    { can_video := true
      can_audio := true
      can_image := true
      can_mirror := true
      supported_codecs := ["h264", "aac"]
      max_resolution := some "1080p"
      protocols := ["airplay"] }
  | _ => DeviceCapabilities.default

/-- Body of `DeviceDiscovery::handle_mdns_events` for one received event —
lines 218-305: on `ServiceResolved`, derive name/id, take the first address
(skip the event if there is none), then update `last_seen` of an existing
record or insert a freshly built one; every other event leaves the registry
untouched. -/
def handle_service_event (devices : Registry) (device_type : DeviceType)
    (ev : ServiceEvent) (now : Int) : Registry :=
  match ev with
  | ServiceEvent.serviceResolved info =>
    let name := trimTrailingDots info.fullname
    let id := mdnsDeviceId device_type info
    match info.addresses.head? with
    | none => devices
    | some ip =>
      match registryGet devices id with
      | some _ =>
        registryUpdate devices id (fun d => d.update_last_seen now)
      | none =>
        let base := DiscoveredDevice.new id name device_type ip info.port now
        let d := { base with
                    metadata := buildMetadata info.properties
                    capabilities := mdnsCapabilities device_type }
        registryInsert devices id d
  | _ => devices

/-- Reaper constants — lines 320 and 329: sweep interval and stale timeout
in seconds. -/
def cleanup_interval_secs : Nat := 30

def stale_timeout_secs : Int := 300

/-- One tick of `DeviceDiscovery::cleanup_stale_devices` — lines 329-342:
collect the keys of stale entries, then remove each collected key. -/
def cleanup_stale_tick (devices : Registry) (now : Int) : Registry :=
  let to_remove :=
    (devices.filter (fun e => e.2.is_stale stale_timeout_secs now)).map
      (fun e => e.1)
  to_remove.foldl registryRemove devices

/-- Result of `url::Url::parse` on an SSDP `location`, restricted to the
fields discovery reads. `hostIp` is `host_str.parse::<IpAddr>()` rendered
back through `Display` (`none` when the host is not an IP address). -/
structure UrlParse where
  scheme : String
  hostStr : Option String
  hostIp : Option String
  urlPort : Option Nat
deriving DecidableEq, Repr

/-- One SSDP search response, with the `location` URL pre-parsed (`parsed =
none` models `url::Url::parse` failing). -/
structure SsdpResponse where
  location : String
  server : String
  searchTarget : String
  parsed : Option UrlParse
deriving DecidableEq, Repr

/-- Embeds `url.port().unwrap_or_else(|| if https then 443 else 80)` — lines
403-405 and 455-457. -/
def ssdpPort (url : UrlParse) : Nat :=
  match url.urlPort with
  | some p => p
  | none => if url.scheme == "https" then 443 else 80

/-- Root-device branch of `DeviceDiscovery::scan_upnp_devices` — lines
393-428: parse the location, require an IP host, default the port by scheme,
and build an `Upnp` record; `none` when the response is skipped. -/
def ssdpRootDevice (r : SsdpResponse) (now : Int) : Option DiscoveredDevice :=
  match r.parsed with
  | none => none
  | some url =>
    match url.hostStr with
    | none => none
    | some host =>
      match url.hostIp with
      | none => none
      | some ip =>
        let port := ssdpPort url
        let name := "UPnP Device at " ++ host
        let id := "upnp:" ++ ip ++ ":" ++ toString port
        let base := DiscoveredDevice.new id name DeviceType.Upnp ip port now
        some { base with
                metadata := [("location", r.location),
                             ("search_target", r.searchTarget),
                             ("server", r.server)] }

/-- MediaRenderer (DLNA) branch of `scan_upnp_devices` — lines 445-488: same
URL handling, `Dlna` type, `dlna:<ip>:<port>` id, and capabilities mutated
from the default (`can_video`/`can_audio` set true, `"dlna"` pushed onto
`protocols`). -/
def ssdpDlnaDevice (r : SsdpResponse) (now : Int) : Option DiscoveredDevice :=
  match r.parsed with
  | none => none
  | some url =>
    match url.hostStr with
    | none => none
    | some host =>
      match url.hostIp with
      | none => none
      | some ip =>
        let port := ssdpPort url
        let name := "DLNA Renderer at " ++ host
        let id := "dlna:" ++ ip ++ ":" ++ toString port
        let base := DiscoveredDevice.new id name DeviceType.Dlna ip port now
        some { base with
                capabilities :=
                  { base.capabilities with
                      can_video := true
                      can_audio := true
                      protocols := base.capabilities.protocols ++ ["dlna"] }
                metadata := [("location", r.location),
                             ("device_type", "MediaRenderer"),
                             ("server", r.server)] }

/-- Embeds `DeviceDiscovery::scan_upnp_devices` — lines 382-496: both searches are
iterated independently; an `Err` result (`none` here) or a skipped response
contributes nothing and stops nothing. -/
def scan_upnp_devices (root_responses dlna_responses :
    List (Option SsdpResponse)) (now : Int) : List DiscoveredDevice :=
  (root_responses.filterMap (fun o => o.bind (fun r => ssdpRootDevice r now)))
    ++ (dlna_responses.filterMap (fun o => o.bind (fun r =>
          ssdpDlnaDevice r now)))

/-- Registry reconciliation of one SSDP poll — lines 362-377: for each
scanned device, bump `last_seen` of an existing record with the same id, or
insert the scanned record. -/
def upnp_tick (devices : Registry) (scanned : List DiscoveredDevice)
    (now : Int) : Registry :=
  scanned.foldl
    (fun acc device =>
      match registryGet acc device.id with
      | some _ =>
        registryUpdate acc device.id (fun d => d.update_last_seen now)
      | none => registryInsert acc device.id device)
    devices

/-- The kinds of tasks `Start` spawns — lines 177-199. -/
inductive TaskKind where
  | mdnsWatcher (device_type : DeviceType)
  | upnpPoller
  | reaper
deriving DecidableEq, Repr

/-- Embeds `DeviceDiscovery` state — lines 126-131: the registry handle, the mDNS
daemon handle, the running flag, and the spawned-task list. -/
structure DiscoveryState where
  devices : Registry
  mdns : Option Unit
  running : Bool
  tasks : List TaskKind
deriving DecidableEq, Repr

/-- Embeds `DeviceDiscovery::new` — lines 134-141. -/
def DiscoveryState.new : DiscoveryState :=
  { devices := [], mdns := none, running := false, tasks := [] }

/-- Embeds `DeviceDiscovery::is_running` — lines 541-543. -/
def is_running (st : DiscoveryState) : Bool :=
  st.running

/-- Outcomes of the external calls `Start` makes: whether
`ServiceDaemon::new()` succeeds and whether `mdns.browse(service)` succeeds
for each service name. -/
structure StartEnv where
  daemonOk : Bool
  browseOk : String → Bool

/-- The browse loop of `Start` — lines 165-181: browse each requested type
in order, pushing a watcher task per success; the first failure returns the
error with the tasks pushed so far. -/
def startBrowseLoop (env : StartEnv) (device_types : List DeviceType)
    (tasks : List TaskKind) : (List TaskKind) × Option String :=
  match device_types with
  | [] => (tasks, none)
  | dt :: rest =>
    if env.browseOk dt.to_mdns_service then
      startBrowseLoop env rest (tasks ++ [TaskKind.mdnsWatcher dt])
    else
      (tasks, some ("Failed to browse " ++ dt.to_mdns_service))

/-- Embeds `DeviceDiscovery::start` — lines 144-206. Returns the new state and
`Except` mirroring the `Result`. Early-returns `Ok` when already running;
otherwise drains the task list, creates the daemon, browses every requested
type, optionally spawns the single UPnP poller, spawns the reaper, stores
the daemon handle, and sets the running flag. -/
def start (st : DiscoveryState) (device_types : List DeviceType)
    (env : StartEnv) : DiscoveryState × Except String Unit :=
  if st.running then
    (st, Except.ok ())
  else
    let st0 := { st with tasks := [] }
    if env.daemonOk then
      let needs_upnp := device_types.any (fun dt =>
        match dt with
        | DeviceType.Upnp => true
        | DeviceType.Dlna => true
        | _ => false)
      match startBrowseLoop env device_types [] with
      | (tasks, none) =>
        let tasks :=
          if needs_upnp then tasks ++ [TaskKind.upnpPoller] else tasks
        let tasks := tasks ++ [TaskKind.reaper]
        ({ st0 with tasks := tasks, mdns := some (), running := true },
          Except.ok ())
      | (tasks, some e) =>
        ({ st0 with tasks := tasks }, Except.error e)
    else
      (st0, Except.error "Failed to create mDNS daemon")

/-- Embeds `DeviceDiscovery::stop` — lines 499-519: early-return `Ok` when already
stopped; otherwise clear the running flag, abort and drain every task, take
the daemon handle and shut it down (`shutdownOk` models `mdns.shutdown()`
succeeding), surfacing a shutdown failure as the call's error. -/
def stop (st : DiscoveryState) (shutdownOk : Bool) :
    DiscoveryState × Except String Unit :=
  if st.running then
    let st1 := { st with running := false, tasks := [], mdns := none }
    match st.mdns with
    | some _ =>
      if shutdownOk then (st1, Except.ok ())
      else (st1, Except.error "Failed to shutdown mDNS")
    | none => (st1, Except.ok ())
  else
    (st, Except.ok ())

/-- One unit of work a spawned task may attempt against the registry. -/
inductive TaskInput where
  | mdnsEvent (ev : ServiceEvent) (now : Int)
  | upnpScan (scanned : List DiscoveredDevice) (now : Int)
  | reapTick (now : Int)
deriving Repr

/-- The registry effect of one loop iteration of a spawned task, with the
running-flag guard each loop performs before touching the registry:
`handle_mdns_events` tests `*running.read().await` at the top of its loop
(line 215), and both `cleanup_stale_devices` (line 325) and
`discover_upnp_devices` (line 358) break before doing work once the flag is
false. -/
def task_step (running : Bool) (devices : Registry) (t : TaskKind)
    (inp : TaskInput) : Registry :=
  if running then
    match t, inp with
    | TaskKind.mdnsWatcher dt, TaskInput.mdnsEvent ev now =>
      handle_service_event devices dt ev now
    | TaskKind.upnpPoller, TaskInput.upnpScan scanned now =>
      upnp_tick devices scanned now
    | TaskKind.reaper, TaskInput.reapTick now =>
      cleanup_stale_tick devices now
    | _, _ => devices
  else
    devices

/-- Number of registry entries carrying a given id. -/
def countId (r : Registry) (id : String) : Nat :=
  (r.filter (fun e => e.1 == id)).length

/-- The `discoveredAt <= lastSeen` invariant over a registry. -/
def timestampsOk (r : Registry) : Prop :=
  ∀ e ∈ r, e.2.discovered_at ≤ e.2.last_seen

theorem registryGet_cons (e : String × DiscoveredDevice) (r : Registry)
    (id : String) :
    registryGet (e :: r) id = if e.1 = id then some e.2 else registryGet r id := by
  by_cases h : e.1 = id
  · rw [if_pos h]
    unfold registryGet
    rw [List.find?_cons_of_pos _ (by simpa using h)]
  · rw [if_neg h]
    unfold registryGet
    rw [List.find?_cons_of_neg _ (by simpa using h)]

theorem registryUpdate_cons (e : String × DiscoveredDevice) (r : Registry)
    (id : String) (f : DiscoveredDevice → DiscoveredDevice) :
    registryUpdate (e :: r) id f =
      (if e.1 = id then (e.1, f e.2) else e) :: registryUpdate r id f := by
  unfold registryUpdate
  rw [List.map_cons]
  by_cases h : e.1 = id
  · rw [if_pos (by simpa using h), if_pos h]
  · rw [if_neg (by simpa using h), if_neg h]

theorem keys_registryUpdate (r : Registry) (id : String)
    (f : DiscoveredDevice → DiscoveredDevice) :
    (registryUpdate r id f).map (fun e => e.1) = r.map (fun e => e.1) := by
  induction r with
  | nil => rfl
  | cons e r ih =>
    rw [registryUpdate_cons, List.map_cons, List.map_cons, ih]
    by_cases h : e.1 = id
    · rw [if_pos h]
    · rw [if_neg h]

theorem registryGet_update_self (r : Registry) (id : String)
    (f : DiscoveredDevice → DiscoveredDevice) :
    registryGet (registryUpdate r id f) id = (registryGet r id).map f := by
  induction r with
  | nil => rfl
  | cons e r ih =>
    rw [registryUpdate_cons]
    by_cases h : e.1 = id
    · rw [if_pos h, registryGet_cons, registryGet_cons]
      simp [h]
    · rw [if_neg h, registryGet_cons, registryGet_cons, if_neg h, if_neg h]
      exact ih

theorem registryGet_update_other (r : Registry) (id id' : String)
    (f : DiscoveredDevice → DiscoveredDevice) (h : id' ≠ id) :
    registryGet (registryUpdate r id f) id' = registryGet r id' := by
  induction r with
  | nil => rfl
  | cons e r ih =>
    rw [registryUpdate_cons, registryGet_cons, registryGet_cons]
    by_cases he : e.1 = id
    · rw [if_pos he]
      have hne : ¬ e.1 = id' := by rw [he]; exact fun hc => h hc.symm
      simp only [hne, if_false, if_neg hne]
      exact ih
    · rw [if_neg he]
      by_cases he' : e.1 = id'
      · rw [if_pos he', if_pos he']
      · rw [if_neg he', if_neg he']
        exact ih

theorem registryGet_eq_none_iff (r : Registry) (id : String) :
    registryGet r id = none ↔ ∀ e ∈ r, e.1 ≠ id := by
  induction r with
  | nil => simp [registryGet]
  | cons e r ih =>
    rw [registryGet_cons]
    by_cases h : e.1 = id
    · rw [if_pos h]
      constructor
      · intro hc
        exact absurd hc (by simp)
      · intro hall
        exact absurd h (hall e (List.mem_cons_self _ _))
    · rw [if_neg h, ih]
      constructor
      · intro hall x hx
        rcases List.mem_cons.mp hx with hx | hx
        · rw [hx]; exact h
        · exact hall x hx
      · intro hall x hx
        exact hall x (List.mem_cons_of_mem _ hx)

theorem registryGet_mem (r : Registry) (id : String) (d : DiscoveredDevice)
    (h : registryGet r id = some d) : (id, d) ∈ r := by
  induction r with
  | nil => exact absurd h (by simp [registryGet])
  | cons e r ih =>
    rw [registryGet_cons] at h
    by_cases he : e.1 = id
    · rw [if_pos he] at h
      have : e = (id, d) := by
        cases e
        simp_all
      rw [← this]
      exact List.mem_cons_self _ _
    · rw [if_neg he] at h
      exact List.mem_cons_of_mem _ (ih h)

theorem registryInsert_of_absent (r : Registry) (id : String)
    (d : DiscoveredDevice) (h : registryGet r id = none) :
    registryInsert r id d = r ++ [(id, d)] := by
  unfold registryInsert
  have hf : r.find? (fun e => e.1 == id) = none := by
    unfold registryGet at h
    cases hf : r.find? (fun e => e.1 == id) with
    | none => rfl
    | some e => rw [hf] at h; exact absurd h (by simp)
  rw [hf]
  rfl

theorem registryGet_append (r s : Registry) (id : String) :
    registryGet (r ++ s) id =
      match registryGet r id with
      | some d => some d
      | none => registryGet s id := by
  induction r with
  | nil => simp [registryGet]
  | cons e r ih =>
    rw [List.cons_append, registryGet_cons, registryGet_cons]
    by_cases h : e.1 = id
    · rw [if_pos h, if_pos h]
    · rw [if_neg h, if_neg h, ih]

theorem registryGet_insert_absent_self (r : Registry) (id : String)
    (d : DiscoveredDevice) (h : registryGet r id = none) :
    registryGet (registryInsert r id d) id = some d := by
  rw [registryInsert_of_absent r id d h, registryGet_append, h]
  simp [registryGet_cons]

theorem registryGet_insert_absent_other (r : Registry) (id id' : String)
    (d : DiscoveredDevice) (h : registryGet r id = none) (hne : id' ≠ id) :
    registryGet (registryInsert r id d) id' = registryGet r id' := by
  rw [registryInsert_of_absent r id d h, registryGet_append]
  cases hg : registryGet r id' with
  | some e => rfl
  | none =>
    rw [registryGet_cons, if_neg (fun hc => hne hc.symm)]
    rfl

theorem keys_insert_absent (r : Registry) (id : String) (d : DiscoveredDevice)
    (h : registryGet r id = none) :
    (registryInsert r id d).map (fun e => e.1) =
      r.map (fun e => e.1) ++ [id] := by
  rw [registryInsert_of_absent r id d h]
  simp

theorem countId_cons (e : String × DiscoveredDevice) (r : Registry)
    (id : String) :
    countId (e :: r) id =
      (if e.1 = id then 1 else 0) + countId r id := by
  unfold countId
  rw [List.filter_cons]
  by_cases h : e.1 = id
  · rw [if_pos (by simpa using h), if_pos h, List.length_cons]
    omega
  · rw [if_neg (by simpa using h), if_neg h]
    omega

theorem countId_eq_keys_count (r : Registry) (id : String) :
    countId r id = (r.map (fun e => e.1)).count id := by
  induction r with
  | nil => rfl
  | cons e r ih =>
    rw [countId_cons, List.map_cons, List.count_cons, ih]
    by_cases h : e.1 = id
    · simp [h]
      omega
    · have h' : ¬ (id == e.1) = true := by
        simpa using fun hc => h hc.symm
      simp [h, h']

theorem countId_update (r : Registry) (id id' : String)
    (f : DiscoveredDevice → DiscoveredDevice) :
    countId (registryUpdate r id' f) id = countId r id := by
  rw [countId_eq_keys_count, countId_eq_keys_count, keys_registryUpdate]

theorem countId_of_get_some_of_nodup (r : Registry) (id : String)
    (d : DiscoveredDevice) (hget : registryGet r id = some d)
    (hnodup : (r.map (fun e => e.1)).Nodup) :
    countId r id = 1 := by
  rw [countId_eq_keys_count]
  have hmem : id ∈ r.map (fun e => e.1) := by
    have := registryGet_mem r id d hget
    exact List.mem_map_of_mem (fun e => e.1) this
  exact List.count_eq_one_of_mem hnodup hmem

theorem countId_of_get_none (r : Registry) (id : String)
    (hget : registryGet r id = none) : countId r id = 0 := by
  induction r with
  | nil => rfl
  | cons e r ih =>
    rw [registryGet_cons] at hget
    by_cases h : e.1 = id
    · rw [if_pos h] at hget
      exact absurd hget (by simp)
    · rw [if_neg h] at hget
      rw [countId_cons, if_neg h, ih hget]

theorem registryRemove_mem (r : Registry) (id : String)
    (x : String × DiscoveredDevice) :
    x ∈ registryRemove r id ↔ x ∈ r ∧ x.1 ≠ id := by
  unfold registryRemove
  rw [List.mem_filter]
  simp

theorem foldl_registryRemove_mem (ids : List String) (r : Registry)
    (x : String × DiscoveredDevice) :
    x ∈ ids.foldl registryRemove r ↔ x ∈ r ∧ x.1 ∉ ids := by
  induction ids generalizing r with
  | nil => simp
  | cons i ids ih =>
    rw [List.foldl_cons, ih, registryRemove_mem]
    simp only [List.mem_cons]
    push_neg
    tauto

theorem key_inj_of_nodup (r : Registry)
    (hnodup : (r.map (fun e => e.1)).Nodup)
    (x y : String × DiscoveredDevice) (hx : x ∈ r) (hy : y ∈ r)
    (h : x.1 = y.1) : x = y :=
  List.inj_on_of_nodup_map hnodup hx hy h

theorem cleanup_stale_tick_mem (devices : Registry)
    (hnodup : (devices.map (fun e => e.1)).Nodup) (now : Int)
    (x : String × DiscoveredDevice) :
    x ∈ cleanup_stale_tick devices now ↔
      x ∈ devices ∧ ¬ x.2.is_stale stale_timeout_secs now := by
  unfold cleanup_stale_tick
  rw [foldl_registryRemove_mem]
  constructor
  · rintro ⟨hx, hnotin⟩
    refine ⟨hx, fun hstale => hnotin ?_⟩
    exact List.mem_map_of_mem _
      (List.mem_filter.mpr ⟨hx, by simpa using hstale⟩)
  · rintro ⟨hx, hfresh⟩
    refine ⟨hx, fun hin => ?_⟩
    rcases List.mem_map.mp hin with ⟨y, hy, hkey⟩
    rcases List.mem_filter.mp hy with ⟨hymem, hystale⟩
    have hxy : y = x := key_inj_of_nodup devices hnodup y x hymem hx hkey
    rw [hxy] at hystale
    exact hfresh (by simpa using hystale)

theorem id_not_mem_keys_of_get_none (r : Registry) (id : String)
    (h : registryGet r id = none) : id ∉ r.map (fun e => e.1) := by
  intro hmem
  rcases List.mem_map.mp hmem with ⟨e, he, hk⟩
  exact (registryGet_eq_none_iff r id).mp h e he hk

theorem keys_nodup_insert_absent (r : Registry) (id : String)
    (d : DiscoveredDevice) (h : registryGet r id = none)
    (hnodup : (r.map (fun e => e.1)).Nodup) :
    ((registryInsert r id d).map (fun e => e.1)).Nodup := by
  rw [keys_insert_absent r id d h]
  rw [List.nodup_append]
  exact ⟨hnodup, List.nodup_singleton id,
    by simpa using id_not_mem_keys_of_get_none r id h⟩

theorem handle_resolved_of_present (devices : Registry)
    (device_type : DeviceType) (info : ResolvedInfo) (now : Int)
    (d : DiscoveredDevice) (haddr : info.addresses ≠ [])
    (hget : registryGet devices (mdnsDeviceId device_type info) = some d) :
    handle_service_event devices device_type
        (ServiceEvent.serviceResolved info) now =
      registryUpdate devices (mdnsDeviceId device_type info)
        (fun x => x.update_last_seen now) := by
  unfold handle_service_event
  cases haddrs : info.addresses with
  | nil => exact absurd haddrs haddr
  | cons a rest => simp [haddrs, hget]

theorem handle_resolved_of_absent (devices : Registry)
    (device_type : DeviceType) (info : ResolvedInfo) (now : Int)
    (a : String) (haddrs : info.addresses.head? = some a)
    (hget : registryGet devices (mdnsDeviceId device_type info) = none) :
    handle_service_event devices device_type
        (ServiceEvent.serviceResolved info) now =
      registryInsert devices (mdnsDeviceId device_type info)
        { DiscoveredDevice.new (mdnsDeviceId device_type info)
            (trimTrailingDots info.fullname) device_type a info.port now with
          metadata := buildMetadata info.properties
          capabilities := mdnsCapabilities device_type } := by
  unfold handle_service_event
  simp [haddrs, hget]

theorem handle_resolved_no_address (devices : Registry)
    (device_type : DeviceType) (info : ResolvedInfo) (now : Int)
    (haddrs : info.addresses = []) :
    handle_service_event devices device_type
        (ServiceEvent.serviceResolved info) now = devices := by
  unfold handle_service_event
  simp [haddrs]

/-- Claim C4: `start` on an already-running coordinator is an identity
returning success: the registry, the daemon handle, the running flag, and
the task list are exactly those of the state before the call. -/
theorem C4_idempotent_start (st : DiscoveryState)
    (device_types : List DeviceType) (env : StartEnv)
    (h : st.running = true) :
    start st device_types env = (st, Except.ok ()) := by
  unfold start
  rw [if_pos h]

/-- Witness for C4 at a concrete running state. -/
theorem C4_idempotent_start_witness :
    start
        { devices := [], mdns := some (), running := true,
          tasks := [TaskKind.reaper] }
        [DeviceType.Chromecast]
        { daemonOk := true, browseOk := fun _ => true } =
      ({ devices := [], mdns := some (), running := true,
         tasks := [TaskKind.reaper] }, Except.ok ()) :=
  C4_idempotent_start _ _ _ rfl

/-- Claim C6: `stop` never touches the devices map — the registry, and
hence the `get_devices` snapshot, after `stop` equals the one before,
whether or not the mDNS shutdown succeeds. -/
theorem C6_stop_preserves_registry (st : DiscoveryState) (shutdownOk : Bool) :
    (stop st shutdownOk).1.devices = st.devices
    ∧ get_devices (stop st shutdownOk).1.devices = get_devices st.devices := by
  unfold stop
  by_cases h : st.running = true
  · rw [if_pos h]
    cases st.mdns with
    | none => exact ⟨rfl, rfl⟩
    | some u => cases shutdownOk <;> exact ⟨rfl, rfl⟩
  · rw [if_neg h]
    exact ⟨rfl, rfl⟩

/-- Claim C10: after `stop` the coordinator is never observably running —
`is_running` is false unconditionally, and whenever `stop` surfaces an
error (mDNS shutdown failing) the task list has already been drained and
the daemon handle released. -/
theorem C10_failed_stop_not_running (st : DiscoveryState)
    (shutdownOk : Bool) :
    is_running (stop st shutdownOk).1 = false
    ∧ (∀ e, (stop st shutdownOk).2 = Except.error e →
        (stop st shutdownOk).1.tasks = []
        ∧ (stop st shutdownOk).1.mdns = none)
    ∧ (st.running = true →
        (stop st shutdownOk).1.tasks = []
        ∧ (stop st shutdownOk).1.mdns = none) := by
  unfold stop is_running
  by_cases h : st.running = true
  · rw [if_pos h]
    cases st.mdns with
    | none => exact ⟨rfl, fun e he => ⟨rfl, rfl⟩, fun _ => ⟨rfl, rfl⟩⟩
    | some u =>
      cases shutdownOk with
      | false => exact ⟨rfl, fun e he => ⟨rfl, rfl⟩, fun _ => ⟨rfl, rfl⟩⟩
      | true => exact ⟨rfl, fun e he => ⟨rfl, rfl⟩, fun _ => ⟨rfl, rfl⟩⟩
  · rw [if_neg h]
    refine ⟨?_, fun e he => absurd he (by simp), fun hr => absurd hr h⟩
    simpa using h

/-- Witness for C10 at a state where `stop` actually fails: running, with
a daemon handle, and the shutdown refusing. -/
theorem C10_failed_stop_not_running_witness :
    is_running
        (stop
          { devices := [], mdns := some (), running := true,
            tasks := [TaskKind.reaper] } false).1 = false
    ∧ (stop
          { devices := [], mdns := some (), running := true,
            tasks := [TaskKind.reaper] } false).1.tasks = []
    ∧ (stop
          { devices := [], mdns := some (), running := true,
            tasks := [TaskKind.reaper] } false).1.mdns = none := by
  have h := C10_failed_stop_not_running
    { devices := [], mdns := some (), running := true,
      tasks := [TaskKind.reaper] } false
  exact ⟨h.1, (h.2.1 "Failed to shutdown mDNS" rfl).1,
    (h.2.1 "Failed to shutdown mDNS" rfl).2⟩

/-- Counterexample to C7: the round trip fails on `Upnp` — its mDNS
service name is not recognized by `from_service_type`, which returns
`Custom "_upnp._tcp.local."` instead of `Upnp`. -/
theorem C7_counterexample :
    ¬ (DeviceType.from_service_type
        (DeviceType.to_mdns_service DeviceType.Upnp) = DeviceType.Upnp) := by
  decide

/-- Claim C7 (amended): the string-side round trip holds for every service
name (`from_service_type s` always maps back to `s`), and the type-side
round trip holds exactly for the four mDNS-mapped types — `Chromecast`,
`AirPlay`, `Dlna`, `FireTv` — while `Upnp` and `Miracast` come back as
`Custom` of their service names. -/
theorem C7_amended_roundtrip :
    (∀ s : String, (DeviceType.from_service_type s).to_mdns_service = s)
    ∧ DeviceType.from_service_type
        (DeviceType.to_mdns_service DeviceType.Chromecast) =
        DeviceType.Chromecast
    ∧ DeviceType.from_service_type
        (DeviceType.to_mdns_service DeviceType.AirPlay) = DeviceType.AirPlay
    ∧ DeviceType.from_service_type
        (DeviceType.to_mdns_service DeviceType.Dlna) = DeviceType.Dlna
    ∧ DeviceType.from_service_type
        (DeviceType.to_mdns_service DeviceType.FireTv) = DeviceType.FireTv
    ∧ DeviceType.from_service_type
        (DeviceType.to_mdns_service DeviceType.Upnp) =
        DeviceType.Custom "_upnp._tcp.local."
    ∧ DeviceType.from_service_type
        (DeviceType.to_mdns_service DeviceType.Miracast) =
        DeviceType.Custom "_miracast._tcp.local." := by
  refine ⟨?_, by decide, by decide, by decide, by decide, by decide,
    by decide⟩
  intro s
  unfold DeviceType.from_service_type
  split_ifs with h1 h2 h3 h4 <;>
    simp_all [DeviceType.to_mdns_service]

/-- Claim C5: when `start` returns an error — daemon creation failing or
any single `browse` call failing — the coordinator is left stopped
(`is_running` false), the registry is untouched, and no task step can
mutate the registry from the resulting state, because every task loop
gates on the running flag. -/
theorem C5_start_failure_atomic (st : DiscoveryState)
    (device_types : List DeviceType) (env : StartEnv) (e : String)
    (herr : (start st device_types env).2 = Except.error e) :
    is_running (start st device_types env).1 = false
    ∧ (start st device_types env).1.devices = st.devices
    ∧ ∀ t inp,
        task_step (is_running (start st device_types env).1)
            (start st device_types env).1.devices t inp =
          (start st device_types env).1.devices := by
  have hmain :
      (start st device_types env).1.running = false
      ∧ (start st device_types env).1.devices = st.devices := by
    unfold start at herr ⊢
    by_cases hrun : st.running = true
    · rw [if_pos hrun] at herr
      exact absurd herr (by simp)
    · rw [if_neg hrun] at herr ⊢
      have hrun' : st.running = false := by
        cases hr : st.running
        · rfl
        · exact absurd hr hrun
      by_cases hd : env.daemonOk = true
      · rw [if_pos hd] at herr ⊢
        cases hloop : startBrowseLoop env device_types [] with
        | mk ts err =>
          rw [hloop] at herr
          cases err with
          | none => exact absurd herr (by simp)
          | some msg => exact ⟨by simp [hrun'], by simp⟩
      · rw [if_neg hd] at herr ⊢
        exact ⟨hrun', rfl⟩
  refine ⟨hmain.1, hmain.2, fun t inp => ?_⟩
  rw [show is_running (start st device_types env).1 = false from hmain.1]
  unfold task_step
  rw [if_neg (by simp)]

/-- Witness for C5: daemon creation fails on a fresh coordinator. -/
theorem C5_start_failure_atomic_witness :
    is_running
        (start DiscoveryState.new [DeviceType.Chromecast]
          { daemonOk := false, browseOk := fun _ => true }).1 = false
    ∧ (start DiscoveryState.new [DeviceType.Chromecast]
          { daemonOk := false, browseOk := fun _ => true }).1.devices =
        DiscoveryState.new.devices
    ∧ task_step
        (is_running
          (start DiscoveryState.new [DeviceType.Chromecast]
            { daemonOk := false, browseOk := fun _ => true }).1)
        (start DiscoveryState.new [DeviceType.Chromecast]
          { daemonOk := false, browseOk := fun _ => true }).1.devices
        TaskKind.reaper (TaskInput.reapTick 400) =
      (start DiscoveryState.new [DeviceType.Chromecast]
        { daemonOk := false, browseOk := fun _ => true }).1.devices := by
  have h := C5_start_failure_atomic DiscoveryState.new [DeviceType.Chromecast]
    { daemonOk := false, browseOk := fun _ => true }
    "Failed to create mDNS daemon" rfl
  exact ⟨h.1, h.2.1, h.2.2 TaskKind.reaper (TaskInput.reapTick 400)⟩

/-- Claim C1: re-advertisement deduplicates. When a `ServiceResolved` event
arrives for an id already present in a duplicate-free registry, only that
record's `last_seen` changes (to the event's time) — all other fields and
all other records are untouched and the key set is preserved; two
resolutions of the same `(serviceType, hostname, port)` leave exactly one
record under the derived id; and an SSDP re-scan of a present id likewise
only bumps `last_seen`. -/
theorem C1_readvertisement_dedup (devices : Registry)
    (hnodup : (devices.map (fun e => e.1)).Nodup)
    (device_type : DeviceType) (info : ResolvedInfo) (now1 now2 : Int)
    (haddr : info.addresses ≠ []) :
    (∀ d, registryGet devices (mdnsDeviceId device_type info) = some d →
      registryGet
          (handle_service_event devices device_type
            (ServiceEvent.serviceResolved info) now1)
          (mdnsDeviceId device_type info) = some { d with last_seen := now1 }
      ∧ (handle_service_event devices device_type
            (ServiceEvent.serviceResolved info) now1).map (fun e => e.1) =
          devices.map (fun e => e.1)
      ∧ (∀ id', id' ≠ mdnsDeviceId device_type info →
          registryGet
              (handle_service_event devices device_type
                (ServiceEvent.serviceResolved info) now1) id' =
            registryGet devices id'))
    ∧ countId
        (handle_service_event
          (handle_service_event devices device_type
            (ServiceEvent.serviceResolved info) now1)
          device_type (ServiceEvent.serviceResolved info) now2)
        (mdnsDeviceId device_type info) = 1
    ∧ (∀ dev d, registryGet devices dev.id = some d →
        registryGet (upnp_tick devices [dev] now1) dev.id =
          some { d with last_seen := now1 }
        ∧ (upnp_tick devices [dev] now1).map (fun e => e.1) =
            devices.map (fun e => e.1)) := by
  refine ⟨fun d hget => ?_, ?_, fun dev d hget => ?_⟩
  · rw [handle_resolved_of_present devices device_type info now1 d haddr hget]
    refine ⟨?_, keys_registryUpdate _ _ _, fun id' hne =>
      registryGet_update_other _ _ _ _ hne⟩
    rw [registryGet_update_self, hget]
    rfl
  · cases hget : registryGet devices (mdnsDeviceId device_type info) with
    | some d =>
      rw [handle_resolved_of_present devices device_type info now1 d haddr
        hget]
      have hget1 : registryGet
          (registryUpdate devices (mdnsDeviceId device_type info)
            (fun x => x.update_last_seen now1))
          (mdnsDeviceId device_type info) =
          some (d.update_last_seen now1) := by
        rw [registryGet_update_self, hget]
        rfl
      rw [handle_resolved_of_present _ device_type info now2 _ haddr hget1,
        countId_update]
      exact countId_of_get_some_of_nodup _ _ _ hget1
        (by rw [keys_registryUpdate]; exact hnodup)
    | none =>
      cases haddrs : info.addresses with
      | nil => exact absurd haddrs haddr
      | cons a rest =>
        have hhead : info.addresses.head? = some a := by rw [haddrs]; rfl
        rw [handle_resolved_of_absent devices device_type info now1 a hhead
          hget]
        have hget1 := registryGet_insert_absent_self devices
          (mdnsDeviceId device_type info)
          { DiscoveredDevice.new (mdnsDeviceId device_type info)
              (trimTrailingDots info.fullname) device_type a info.port now1
            with
            metadata := buildMetadata info.properties
            capabilities := mdnsCapabilities device_type } hget
        rw [handle_resolved_of_present _ device_type info now2 _ haddr hget1,
          countId_update]
        exact countId_of_get_some_of_nodup _ _ _ hget1
          (keys_nodup_insert_absent _ _ _ hget hnodup)
  · have hstep : upnp_tick devices [dev] now1 =
        registryUpdate devices dev.id (fun x => x.update_last_seen now1) := by
      unfold upnp_tick
      simp [hget]
    rw [hstep]
    refine ⟨?_, keys_registryUpdate _ _ _⟩
    rw [registryGet_update_self, hget]
    rfl

/-- Witness for C1: a Chromecast resolved twice on a registry already
holding it. -/
theorem C1_readvertisement_dedup_witness :
    registryGet
        (handle_service_event
          [("_googlecast._tcp.local.:livingroom.local.:8009",
            DiscoveredDevice.new
              "_googlecast._tcp.local.:livingroom.local.:8009"
              "Living Room._googlecast._tcp.local" DeviceType.Chromecast
              "192.168.1.5" 8009 50)]
          DeviceType.Chromecast
          (ServiceEvent.serviceResolved
            { fullname := "Living Room._googlecast._tcp.local."
              hostname := "livingroom.local."
              port := 8009
              addresses := ["192.168.1.5"]
              properties := [("md", "Chromecast")] }) 60)
        "_googlecast._tcp.local.:livingroom.local.:8009" =
      some { DiscoveredDevice.new
              "_googlecast._tcp.local.:livingroom.local.:8009"
              "Living Room._googlecast._tcp.local" DeviceType.Chromecast
              "192.168.1.5" 8009 50 with last_seen := 60 }
    ∧ countId
        (handle_service_event
          (handle_service_event
            [("_googlecast._tcp.local.:livingroom.local.:8009",
              DiscoveredDevice.new
                "_googlecast._tcp.local.:livingroom.local.:8009"
                "Living Room._googlecast._tcp.local" DeviceType.Chromecast
                "192.168.1.5" 8009 50)]
            DeviceType.Chromecast
            (ServiceEvent.serviceResolved
              { fullname := "Living Room._googlecast._tcp.local."
                hostname := "livingroom.local."
                port := 8009
                addresses := ["192.168.1.5"]
                properties := [("md", "Chromecast")] }) 60)
          DeviceType.Chromecast
          (ServiceEvent.serviceResolved
            { fullname := "Living Room._googlecast._tcp.local."
              hostname := "livingroom.local."
              port := 8009
              addresses := ["192.168.1.5"]
              properties := [("md", "Chromecast")] }) 70)
        "_googlecast._tcp.local.:livingroom.local.:8009" = 1 := by
  have h := C1_readvertisement_dedup
    [("_googlecast._tcp.local.:livingroom.local.:8009",
      DiscoveredDevice.new "_googlecast._tcp.local.:livingroom.local.:8009"
        "Living Room._googlecast._tcp.local" DeviceType.Chromecast
        "192.168.1.5" 8009 50)]
    (by decide) DeviceType.Chromecast
    { fullname := "Living Room._googlecast._tcp.local."
      hostname := "livingroom.local."
      port := 8009
      addresses := ["192.168.1.5"]
      properties := [("md", "Chromecast")] } 60 70 (by decide)
  refine ⟨?_, ?_⟩
  · exact (h.1 _ (by decide)).1
  · exact h.2.1

/-- Claim C3: the reaper ticks on a 30-second interval and one sweep keeps
exactly the records whose age `now - last_seen` does not exceed the
300-second timeout: a record aged 301 seconds is gone (no record under its
id survives the sweep), a record aged 10 seconds is still in the
`get_devices` snapshot. -/
theorem C3_staleness_reaping (devices : Registry)
    (hnodup : (devices.map (fun e => e.1)).Nodup) (now : Int) :
    cleanup_interval_secs = 30
    ∧ stale_timeout_secs = 300
    ∧ (∀ x, x ∈ cleanup_stale_tick devices now ↔
        x ∈ devices ∧ ¬ (now - x.2.last_seen > 300))
    ∧ (∀ x ∈ devices, now - x.2.last_seen = 301 →
        registryGet (cleanup_stale_tick devices now) x.1 = none)
    ∧ (∀ x ∈ devices, now - x.2.last_seen = 10 →
        x.2 ∈ get_devices (cleanup_stale_tick devices now)) := by
  have hmem := cleanup_stale_tick_mem devices hnodup now
  refine ⟨rfl, rfl, fun x => ?_, fun x hx hage => ?_, fun x hx hage => ?_⟩
  · rw [hmem x]
    unfold DiscoveredDevice.is_stale stale_timeout_secs
    simp
  · rw [registryGet_eq_none_iff]
    intro y hy hkey
    rcases (hmem y).mp hy with ⟨hymem, hyfresh⟩
    have hxy : y = x := key_inj_of_nodup devices hnodup y x hymem hx hkey
    rw [hxy] at hyfresh
    apply hyfresh
    unfold DiscoveredDevice.is_stale stale_timeout_secs
    simp
    omega
  · have hin : x ∈ cleanup_stale_tick devices now := by
      rw [hmem x]
      refine ⟨hx, ?_⟩
      unfold DiscoveredDevice.is_stale stale_timeout_secs
      simp
      omega
    exact List.mem_map_of_mem _ hin

/-- Witness for C3: a registry with one stale and one fresh device swept at
time 301. -/
theorem C3_staleness_reaping_witness :
    registryGet
        (cleanup_stale_tick
          [("a", DiscoveredDevice.new "a" "a" DeviceType.Upnp "10.0.0.1" 80 0),
           ("b", DiscoveredDevice.new "b" "b" DeviceType.Upnp "10.0.0.2" 80
              291)] 301) "a" = none
    ∧ (DiscoveredDevice.new "b" "b" DeviceType.Upnp "10.0.0.2" 80 291) ∈
        get_devices
          (cleanup_stale_tick
            [("a", DiscoveredDevice.new "a" "a" DeviceType.Upnp "10.0.0.1" 80
                0),
             ("b", DiscoveredDevice.new "b" "b" DeviceType.Upnp "10.0.0.2" 80
                291)] 301) := by
  have h := C3_staleness_reaping
    [("a", DiscoveredDevice.new "a" "a" DeviceType.Upnp "10.0.0.1" 80 0),
     ("b", DiscoveredDevice.new "b" "b" DeviceType.Upnp "10.0.0.2" 80 291)]
    (by decide) 301
  refine ⟨?_, ?_⟩
  · exact h.2.2.2.1
      ("a", DiscoveredDevice.new "a" "a" DeviceType.Upnp "10.0.0.1" 80 0)
      (by decide) (by decide)
  · exact h.2.2.2.2
      ("b", DiscoveredDevice.new "b" "b" DeviceType.Upnp "10.0.0.2" 80 291)
      (by decide) (by decide)

theorem timestampsOk_registryUpdate (r : Registry) (id : String) (now : Int)
    (h1 : timestampsOk r) (h2 : ∀ e ∈ r, e.2.discovered_at ≤ now) :
    timestampsOk (registryUpdate r id (fun d => d.update_last_seen now)) := by
  intro e' he'
  unfold registryUpdate at he'
  rcases List.mem_map.mp he' with ⟨e, he, hmap⟩
  by_cases h : e.1 = id
  · rw [← hmap, if_pos (by simpa using h)]
    exact h2 e he
  · rw [← hmap, if_neg (by simpa using h)]
    exact h1 e he

theorem discovered_at_le_registryUpdate (r : Registry) (id : String)
    (now : Int) (bound : Int) (h2 : ∀ e ∈ r, e.2.discovered_at ≤ bound) :
    ∀ e' ∈ registryUpdate r id (fun d => d.update_last_seen now),
      e'.2.discovered_at ≤ bound := by
  intro e' he'
  unfold registryUpdate at he'
  rcases List.mem_map.mp he' with ⟨e, he, hmap⟩
  by_cases h : e.1 = id
  · rw [← hmap, if_pos (by simpa using h)]
    exact h2 e he
  · rw [← hmap, if_neg (by simpa using h)]
    exact h2 e he

theorem upnp_tick_timestampsOk (scanned : List DiscoveredDevice)
    (devices : Registry) (now : Int) (h1 : timestampsOk devices)
    (h2 : ∀ e ∈ devices, e.2.discovered_at ≤ now)
    (hs : ∀ d ∈ scanned,
      d.discovered_at ≤ d.last_seen ∧ d.discovered_at ≤ now) :
    timestampsOk (upnp_tick devices scanned now) := by
  induction scanned generalizing devices with
  | nil => exact h1
  | cons dev rest ih =>
    unfold upnp_tick
    rw [List.foldl_cons]
    have hsrest : ∀ d ∈ rest,
        d.discovered_at ≤ d.last_seen ∧ d.discovered_at ≤ now :=
      fun d hd => hs d (List.mem_cons_of_mem _ hd)
    cases hget : registryGet devices dev.id with
    | some d0 =>
      exact ih (registryUpdate devices dev.id
          (fun x => x.update_last_seen now))
        (timestampsOk_registryUpdate devices dev.id now h1 h2)
        (discovered_at_le_registryUpdate devices dev.id now now h2) hsrest
    | none =>
      refine ih (registryInsert devices dev.id dev) ?_ ?_ hsrest
      · rw [registryInsert_of_absent devices dev.id dev hget]
        intro e he
        rcases List.mem_append.mp he with he | he
        · exact h1 e he
        · rcases List.mem_singleton.mp he with rfl
          exact (hs dev (List.mem_cons_self _ _)).1
      · rw [registryInsert_of_absent devices dev.id dev hget]
        intro e he
        rcases List.mem_append.mp he with he | he
        · exact h2 e he
        · rcases List.mem_singleton.mp he with rfl
          exact (hs dev (List.mem_cons_self _ _)).2

theorem handle_service_event_timestampsOk (devices : Registry)
    (device_type : DeviceType) (ev : ServiceEvent) (now : Int)
    (h1 : timestampsOk devices)
    (h2 : ∀ e ∈ devices, e.2.discovered_at ≤ now) :
    timestampsOk (handle_service_event devices device_type ev now) := by
  cases ev with
  | serviceResolved info =>
    cases haddrs : info.addresses with
    | nil =>
      rw [handle_resolved_no_address devices device_type info now haddrs]
      exact h1
    | cons a rest =>
      have hhead : info.addresses.head? = some a := by rw [haddrs]; rfl
      cases hget : registryGet devices (mdnsDeviceId device_type info) with
      | some d =>
        rw [handle_resolved_of_present devices device_type info now d
          (by rw [haddrs]; exact List.cons_ne_nil a rest) hget]
        exact timestampsOk_registryUpdate devices _ now h1 h2
      | none =>
        rw [handle_resolved_of_absent devices device_type info now a hhead
          hget]
        rw [registryInsert_of_absent _ _ _ hget]
        intro e he
        rcases List.mem_append.mp he with he | he
        · exact h1 e he
        · rcases List.mem_singleton.mp he with rfl
          exact le_refl now
  | serviceFound ty fullname => exact h1
  | serviceRemoved ty fullname => exact h1
  | searchStarted ty => exact h1
  | searchStopped ty => exact h1

/-- Claim C9: `discovered_at <= last_seen` holds for every device the read
API can observe, and is preserved by every registry operation under
monotone time: `new` initializes both timestamps to the same instant,
`update_last_seen` moves only `last_seen` (to the current time), and every
mDNS event, SSDP reconciliation (of well-formed scan output), and reaper
sweep keeps the invariant. -/
theorem C9_timestamp_invariant (devices : Registry) (now : Int)
    (h1 : timestampsOk devices)
    (h2 : ∀ e ∈ devices, e.2.discovered_at ≤ now) :
    (∀ id name device_type ip port,
      (DiscoveredDevice.new id name device_type ip port now).discovered_at =
        (DiscoveredDevice.new id name device_type ip port now).last_seen)
    ∧ (∀ d : DiscoveredDevice,
        (d.update_last_seen now).discovered_at = d.discovered_at
        ∧ (d.update_last_seen now).last_seen = now)
    ∧ (∀ d ∈ get_devices devices, d.discovered_at ≤ d.last_seen)
    ∧ (∀ device_type d, d ∈ get_devices_by_type devices device_type →
        d.discovered_at ≤ d.last_seen)
    ∧ (∀ id d, get_device devices id = some d →
        d.discovered_at ≤ d.last_seen)
    ∧ (∀ device_type ev,
        timestampsOk (handle_service_event devices device_type ev now))
    ∧ (∀ scanned : List DiscoveredDevice,
        (∀ d ∈ scanned,
          d.discovered_at ≤ d.last_seen ∧ d.discovered_at ≤ now) →
        timestampsOk (upnp_tick devices scanned now))
    ∧ timestampsOk (cleanup_stale_tick devices now) := by
  refine ⟨fun _ _ _ _ _ => rfl, fun d => ⟨rfl, rfl⟩, ?_, ?_, ?_,
    fun device_type ev =>
      handle_service_event_timestampsOk devices device_type ev now h1 h2,
    fun scanned hs =>
      upnp_tick_timestampsOk scanned devices now h1 h2 hs, ?_⟩
  · intro d hd
    rcases List.mem_map.mp hd with ⟨e, he, rfl⟩
    exact h1 e he
  · intro device_type d hd
    rcases List.mem_map.mp hd with ⟨e, he, rfl⟩
    exact h1 e (List.mem_filter.mp he).1
  · intro id d hd
    exact h1 (id, d) (registryGet_mem devices id d hd)
  · intro e he
    exact h1 e ((foldl_registryRemove_mem _ devices e).mp he).1

/-- Witness for C9 on a concrete one-device registry. -/
theorem C9_timestamp_invariant_witness :
    (∀ d ∈ get_devices
        [("a", DiscoveredDevice.new "a" "a" DeviceType.Upnp "10.0.0.1" 80
            40)], d.discovered_at ≤ d.last_seen)
    ∧ timestampsOk
        (cleanup_stale_tick
          [("a", DiscoveredDevice.new "a" "a" DeviceType.Upnp "10.0.0.1" 80
              40)] 100) := by
  have h := C9_timestamp_invariant
    [("a", DiscoveredDevice.new "a" "a" DeviceType.Upnp "10.0.0.1" 80 40)]
    100
    (by
      intro e he
      rcases List.mem_singleton.mp he with rfl
      exact le_refl _)
    (by
      intro e he
      rcases List.mem_singleton.mp he with rfl
      exact by decide)
  exact ⟨h.2.2.1, h.2.2.2.2.2.2.2⟩

theorem registryGet_update_preserves (devices : Registry) (k : String)
    (now : Int) (id : String) (d : DiscoveredDevice)
    (hget : registryGet devices id = some d) :
    ∃ d', registryGet
        (registryUpdate devices k (fun x => x.update_last_seen now)) id =
          some d'
      ∧ d'.capabilities = d.capabilities ∧ d'.id = d.id ∧ d'.name = d.name
      ∧ d'.device_type = d.device_type ∧ d'.ip = d.ip ∧ d'.port = d.port
      ∧ d'.discovered_at = d.discovered_at ∧ d'.metadata = d.metadata := by
  by_cases h : id = k
  · subst h
    refine ⟨d.update_last_seen now, ?_, rfl, rfl, rfl, rfl, rfl, rfl, rfl,
      rfl⟩
    rw [registryGet_update_self, hget]
    rfl
  · exact ⟨d, by rw [registryGet_update_other _ _ _ _ h]; exact hget,
      rfl, rfl, rfl, rfl, rfl, rfl, rfl, rfl⟩

theorem registryGet_insert_preserves (devices : Registry) (k : String)
    (dev : DiscoveredDevice) (hk : registryGet devices k = none)
    (id : String) (d : DiscoveredDevice)
    (hget : registryGet devices id = some d) :
    registryGet (registryInsert devices k dev) id = some d := by
  have hne : id ≠ k := by
    intro hc
    rw [hc, hk] at hget
    exact absurd hget (by simp)
  rw [registryGet_insert_absent_other devices k id dev hk hne]
  exact hget

theorem handle_service_event_preserves_existing (devices : Registry)
    (device_type : DeviceType) (ev : ServiceEvent) (now : Int) (id : String)
    (d : DiscoveredDevice) (hget : registryGet devices id = some d) :
    ∃ d', registryGet (handle_service_event devices device_type ev now) id =
        some d'
      ∧ d'.capabilities = d.capabilities ∧ d'.id = d.id ∧ d'.name = d.name
      ∧ d'.device_type = d.device_type ∧ d'.ip = d.ip ∧ d'.port = d.port
      ∧ d'.discovered_at = d.discovered_at ∧ d'.metadata = d.metadata := by
  cases ev with
  | serviceResolved info =>
    cases haddrs : info.addresses with
    | nil =>
      rw [handle_resolved_no_address devices device_type info now haddrs]
      exact ⟨d, hget, rfl, rfl, rfl, rfl, rfl, rfl, rfl, rfl⟩
    | cons a rest =>
      have hhead : info.addresses.head? = some a := by rw [haddrs]; rfl
      have haddr : info.addresses ≠ [] := by
        rw [haddrs]; exact List.cons_ne_nil a rest
      cases hk : registryGet devices (mdnsDeviceId device_type info) with
      | some d0 =>
        rw [handle_resolved_of_present devices device_type info now d0 haddr
          hk]
        exact registryGet_update_preserves devices _ now id d hget
      | none =>
        rw [handle_resolved_of_absent devices device_type info now a hhead
          hk]
        exact ⟨d, registryGet_insert_preserves devices _ _ hk id d hget,
          rfl, rfl, rfl, rfl, rfl, rfl, rfl, rfl⟩
  | serviceFound ty fullname =>
    exact ⟨d, hget, rfl, rfl, rfl, rfl, rfl, rfl, rfl, rfl⟩
  | serviceRemoved ty fullname =>
    exact ⟨d, hget, rfl, rfl, rfl, rfl, rfl, rfl, rfl, rfl⟩
  | searchStarted ty =>
    exact ⟨d, hget, rfl, rfl, rfl, rfl, rfl, rfl, rfl, rfl⟩
  | searchStopped ty =>
    exact ⟨d, hget, rfl, rfl, rfl, rfl, rfl, rfl, rfl, rfl⟩

theorem upnp_tick_preserves_existing (scanned : List DiscoveredDevice)
    (devices : Registry) (now : Int) (id : String) (d : DiscoveredDevice)
    (hget : registryGet devices id = some d) :
    ∃ d', registryGet (upnp_tick devices scanned now) id = some d'
      ∧ d'.capabilities = d.capabilities
      ∧ d'.discovered_at = d.discovered_at := by
  induction scanned generalizing devices d with
  | nil => exact ⟨d, hget, rfl, rfl⟩
  | cons dev rest ih =>
    unfold upnp_tick
    simp only [List.foldl_cons]
    cases hk : registryGet devices dev.id with
    | some d0 =>
      rcases registryGet_update_preserves devices dev.id now id d hget with
        ⟨d1, hget1, hcaps1, _, _, _, _, _, hdisc1, _⟩
      rcases ih (registryUpdate devices dev.id
          (fun x => x.update_last_seen now)) d1 hget1 with
        ⟨d', hget', hcaps', hdisc'⟩
      exact ⟨d', hget', hcaps'.trans hcaps1, hdisc'.trans hdisc1⟩
    | none =>
      exact ih (registryInsert devices dev.id dev) d
        (registryGet_insert_preserves devices dev.id dev hk id d hget)

/-- Counterexample to C2: capabilities at first-sight creation are not a
function of the DeviceType. An mDNS-resolved `_dlna._tcp.local.` device is
created with the default profile, while an SSDP MediaRenderer response
creates a device of the same `Dlna` type with `protocols = ["dlna"]` — so
the SSDP-created Dlna record's capabilities differ from the default profile
the claim assigns to unmapped types. -/
theorem C2_counterexample :
    (registryGet
        (handle_service_event [] DeviceType.Dlna
          (ServiceEvent.serviceResolved
            { fullname := "X._dlna._tcp.local."
              hostname := "x.local."
              port := 1
              addresses := ["10.0.0.2"]
              properties := [] }) 100)
        (mdnsDeviceId DeviceType.Dlna
          { fullname := "X._dlna._tcp.local."
            hostname := "x.local."
            port := 1
            addresses := ["10.0.0.2"]
            properties := [] })).map (fun d => d.device_type) =
      some DeviceType.Dlna
    ∧ (registryGet
        (handle_service_event [] DeviceType.Dlna
          (ServiceEvent.serviceResolved
            { fullname := "X._dlna._tcp.local."
              hostname := "x.local."
              port := 1
              addresses := ["10.0.0.2"]
              properties := [] }) 100)
        (mdnsDeviceId DeviceType.Dlna
          { fullname := "X._dlna._tcp.local."
            hostname := "x.local."
            port := 1
            addresses := ["10.0.0.2"]
            properties := [] })).map (fun d => d.capabilities) =
      some DeviceCapabilities.default
    ∧ (ssdpDlnaDevice
        { location := "http://10.0.0.3:80/d.xml"
          server := "srv"
          searchTarget := "urn:schemas-upnp-org:device:MediaRenderer:1"
          parsed := some
            { scheme := "http"
              hostStr := some "10.0.0.3"
              hostIp := some "10.0.0.3"
              urlPort := some 80 } } 100).map (fun d => d.device_type) =
      some DeviceType.Dlna
    ∧ (ssdpDlnaDevice
        { location := "http://10.0.0.3:80/d.xml"
          server := "srv"
          searchTarget := "urn:schemas-upnp-org:device:MediaRenderer:1"
          parsed := some
            { scheme := "http"
              hostStr := some "10.0.0.3"
              hostIp := some "10.0.0.3"
              urlPort := some 80 } } 100).map (fun d => d.capabilities) ≠
      some DeviceCapabilities.default := by
  decide

/-- Claim C2 (amended): capability fixation per creation path. At
first sight an mDNS-created record's capabilities equal the watcher's
profile for its DeviceType — the claimed Chromecast profile, and the
default profile for `Dlna`, `Upnp`, `Miracast` and `Custom` — an SSDP
root-device record gets the default profile, and an SSDP MediaRenderer
(DLNA) record gets the default profile with `"dlna"` appended to
`protocols`; and no subsequent advertisement (mDNS event or SSDP
reconciliation) ever changes the capabilities stored under an existing id,
even if it carries different metadata. -/
theorem C2_capability_fixation_amended :
    mdnsCapabilities DeviceType.Chromecast =
      { can_video := true, can_audio := true, can_image := true,
        can_mirror := true,
        supported_codecs := ["h264", "vp8", "vp9", "aac", "opus"],
        max_resolution := some "4K", protocols := ["cast"] }
    ∧ mdnsCapabilities DeviceType.Dlna = DeviceCapabilities.default
    ∧ mdnsCapabilities DeviceType.Upnp = DeviceCapabilities.default
    ∧ mdnsCapabilities DeviceType.Miracast = DeviceCapabilities.default
    ∧ (∀ s, mdnsCapabilities (DeviceType.Custom s) =
        DeviceCapabilities.default)
    ∧ (∀ devices device_type info now,
        registryGet devices (mdnsDeviceId device_type info) = none →
        ∀ d, registryGet
            (handle_service_event devices device_type
              (ServiceEvent.serviceResolved info) now)
            (mdnsDeviceId device_type info) = some d →
          d.capabilities = mdnsCapabilities device_type)
    ∧ (∀ r now d, ssdpRootDevice r now = some d →
        d.capabilities = DeviceCapabilities.default)
    ∧ (∀ r now d, ssdpDlnaDevice r now = some d →
        d.capabilities =
          { DeviceCapabilities.default with protocols := ["dlna"] })
    ∧ (∀ devices device_type ev now id d, registryGet devices id = some d →
        ∃ d', registryGet (handle_service_event devices device_type ev now)
            id = some d'
          ∧ d'.capabilities = d.capabilities)
    ∧ (∀ devices scanned now id d, registryGet devices id = some d →
        ∃ d', registryGet (upnp_tick devices scanned now) id = some d'
          ∧ d'.capabilities = d.capabilities) := by
  refine ⟨rfl, rfl, rfl, rfl, fun s => rfl, ?_, ?_, ?_, ?_, ?_⟩
  · intro devices device_type info now hnone d hget
    cases haddrs : info.addresses with
    | nil =>
      rw [handle_resolved_no_address devices device_type info now haddrs]
        at hget
      rw [hnone] at hget
      exact absurd hget (by simp)
    | cons a rest =>
      have hhead : info.addresses.head? = some a := by rw [haddrs]; rfl
      rw [handle_resolved_of_absent devices device_type info now a hhead
        hnone, registryGet_insert_absent_self devices _ _ hnone] at hget
      have := Option.some.inj hget
      rw [← this]
  · intro r now d h
    unfold ssdpRootDevice at h
    split at h
    · exact absurd h (by simp)
    · split at h
      · exact absurd h (by simp)
      · split at h
        · exact absurd h (by simp)
        · have hd := Option.some.inj h
          subst hd
          rfl
  · intro r now d h
    unfold ssdpDlnaDevice at h
    split at h
    · exact absurd h (by simp)
    · split at h
      · exact absurd h (by simp)
      · split at h
        · exact absurd h (by simp)
        · have hd := Option.some.inj h
          subst hd
          rfl
  · intro devices device_type ev now id d hget
    rcases handle_service_event_preserves_existing devices device_type ev
      now id d hget with ⟨d', hget', hcaps, _⟩
    exact ⟨d', hget', hcaps⟩
  · intro devices scanned now id d hget
    rcases upnp_tick_preserves_existing scanned devices now id d hget with
      ⟨d', hget', hcaps, _⟩
    exact ⟨d', hget', hcaps⟩

/-- Witness for C2 (amended) at concrete creations and one concrete
update. -/
theorem C2_capability_fixation_amended_witness :
    (∀ d, registryGet
        (handle_service_event [] DeviceType.Chromecast
          (ServiceEvent.serviceResolved
            { fullname := "Living Room._googlecast._tcp.local."
              hostname := "livingroom.local."
              port := 8009
              addresses := ["192.168.1.5"]
              properties := [("md", "Chromecast")] }) 100)
        (mdnsDeviceId DeviceType.Chromecast
          { fullname := "Living Room._googlecast._tcp.local."
            hostname := "livingroom.local."
            port := 8009
            addresses := ["192.168.1.5"]
            properties := [("md", "Chromecast")] }) = some d →
      d.capabilities = mdnsCapabilities DeviceType.Chromecast)
    ∧ (∃ d', registryGet
          (upnp_tick
            [("k", DiscoveredDevice.new "k" "k" DeviceType.Upnp "10.0.0.9"
                80 10)]
            [DiscoveredDevice.new "k" "other" DeviceType.Upnp "10.0.0.9" 80
                90] 90) "k" = some d'
        ∧ d'.capabilities =
            (DiscoveredDevice.new "k" "k" DeviceType.Upnp "10.0.0.9" 80
              10).capabilities) := by
  have h := C2_capability_fixation_amended
  refine ⟨fun d hd => h.2.2.2.2.2.1 [] DeviceType.Chromecast
    { fullname := "Living Room._googlecast._tcp.local."
      hostname := "livingroom.local."
      port := 8009
      addresses := ["192.168.1.5"]
      properties := [("md", "Chromecast")] } 100 rfl d hd, ?_⟩
  exact h.2.2.2.2.2.2.2.2.2
    [("k", DiscoveredDevice.new "k" "k" DeviceType.Upnp "10.0.0.9" 80 10)]
    [DiscoveredDevice.new "k" "other" DeviceType.Upnp "10.0.0.9" 80 90] 90
    "k" (DiscoveredDevice.new "k" "k" DeviceType.Upnp "10.0.0.9" 80 10)
    (by decide)

theorem ssdpRootDevice_eq (r : SsdpResponse) (u : UrlParse)
    (host ip : String) (now : Int) (hp : r.parsed = some u)
    (hh : u.hostStr = some host) (hip : u.hostIp = some ip) :
    ssdpRootDevice r now =
      some { DiscoveredDevice.new ("upnp:" ++ ip ++ ":" ++
                toString (ssdpPort u)) ("UPnP Device at " ++ host)
              DeviceType.Upnp ip (ssdpPort u) now with
             metadata := [("location", r.location),
                          ("search_target", r.searchTarget),
                          ("server", r.server)] } := by
  simp only [ssdpRootDevice, hp, hh, hip]

theorem ssdpDlnaDevice_eq (r : SsdpResponse) (u : UrlParse)
    (host ip : String) (now : Int) (hp : r.parsed = some u)
    (hh : u.hostStr = some host) (hip : u.hostIp = some ip) :
    ssdpDlnaDevice r now =
      some { DiscoveredDevice.new ("dlna:" ++ ip ++ ":" ++
                toString (ssdpPort u)) ("DLNA Renderer at " ++ host)
              DeviceType.Dlna ip (ssdpPort u) now with
             capabilities :=
               { (DiscoveredDevice.new ("dlna:" ++ ip ++ ":" ++
                    toString (ssdpPort u)) ("DLNA Renderer at " ++ host)
                   DeviceType.Dlna ip (ssdpPort u) now).capabilities with
                 can_video := true
                 can_audio := true
                 protocols :=
                   (DiscoveredDevice.new ("dlna:" ++ ip ++ ":" ++
                      toString (ssdpPort u)) ("DLNA Renderer at " ++ host)
                     DeviceType.Dlna ip (ssdpPort u)
                     now).capabilities.protocols ++ ["dlna"] }
             metadata := [("location", r.location),
                          ("device_type", "MediaRenderer"),
                          ("server", r.server)] } := by
  simp only [ssdpDlnaDevice, hp, hh, hip]

theorem ssdpRootDevice_skip (r : SsdpResponse) (now : Int)
    (h : r.parsed = none
      ∨ ∃ u, r.parsed = some u ∧ (u.hostStr = none ∨ u.hostIp = none)) :
    ssdpRootDevice r now = none := by
  rcases h with hp | ⟨u, hp, hcase⟩
  · simp [ssdpRootDevice, hp]
  · rcases hcase with hh | hip
    · simp [ssdpRootDevice, hp, hh]
    · cases hh : u.hostStr with
      | none => simp [ssdpRootDevice, hp, hh]
      | some host => simp [ssdpRootDevice, hp, hh, hip]

theorem ssdpDlnaDevice_skip (r : SsdpResponse) (now : Int)
    (h : r.parsed = none
      ∨ ∃ u, r.parsed = some u ∧ (u.hostStr = none ∨ u.hostIp = none)) :
    ssdpDlnaDevice r now = none := by
  rcases h with hp | ⟨u, hp, hcase⟩
  · simp [ssdpDlnaDevice, hp]
  · rcases hcase with hh | hip
    · simp [ssdpDlnaDevice, hp, hh]
    · cases hh : u.hostStr with
      | none => simp [ssdpDlnaDevice, hp, hh]
      | some host => simp [ssdpDlnaDevice, hp, hh, hip]

/-- Claim C8: SSDP record derivation. For a response whose location URL
parses and whose host is an IP address, the root-device search produces a
record with the URL port (defaulted 443 for https, else 80), id
`upnp:<ip>:<port>` and type `Upnp`, and the MediaRenderer search produces
id `dlna:<ip>:<port>` and type `Dlna`, both carrying the raw location and
server string in metadata; an unparseable location or non-IP host produces
no record and removing such a response from either search leaves the scan
output unchanged. -/
theorem C8_ssdp_record_derivation (r : SsdpResponse) (u : UrlParse)
    (host ip : String) (hp : r.parsed = some u) (hh : u.hostStr = some host)
    (hip : u.hostIp = some ip) (now : Int) :
    (∃ d, ssdpRootDevice r now = some d
      ∧ d.port = (match u.urlPort with
          | some p => p
          | none => if u.scheme == "https" then 443 else 80)
      ∧ d.id = "upnp:" ++ ip ++ ":" ++ toString d.port
      ∧ d.device_type = DeviceType.Upnp
      ∧ d.ip = ip
      ∧ ("location", r.location) ∈ d.metadata
      ∧ ("server", r.server) ∈ d.metadata)
    ∧ (∃ d, ssdpDlnaDevice r now = some d
      ∧ d.port = (match u.urlPort with
          | some p => p
          | none => if u.scheme == "https" then 443 else 80)
      ∧ d.id = "dlna:" ++ ip ++ ":" ++ toString d.port
      ∧ d.device_type = DeviceType.Dlna
      ∧ d.ip = ip
      ∧ ("location", r.location) ∈ d.metadata
      ∧ ("server", r.server) ∈ d.metadata)
    ∧ (∀ r' : SsdpResponse, r'.parsed = none →
        ssdpRootDevice r' now = none ∧ ssdpDlnaDevice r' now = none)
    ∧ (∀ (r' : SsdpResponse) (u' : UrlParse), r'.parsed = some u' →
        u'.hostIp = none →
        ssdpRootDevice r' now = none ∧ ssdpDlnaDevice r' now = none)
    ∧ (∀ pre post dlna_responses r', ssdpRootDevice r' now = none →
        scan_upnp_devices (pre ++ some r' :: post) dlna_responses now =
          scan_upnp_devices (pre ++ post) dlna_responses now)
    ∧ (∀ root_responses pre post r', ssdpDlnaDevice r' now = none →
        scan_upnp_devices root_responses (pre ++ some r' :: post) now =
          scan_upnp_devices root_responses (pre ++ post) now) := by
  refine ⟨?_, ?_, ?_, ?_, ?_, ?_⟩
  · refine ⟨_, ssdpRootDevice_eq r u host ip now hp hh hip, rfl, rfl, rfl,
      rfl, ?_, ?_⟩
    · exact List.mem_cons_self _ _
    · simp
  · refine ⟨_, ssdpDlnaDevice_eq r u host ip now hp hh hip, rfl, rfl, rfl,
      rfl, ?_, ?_⟩
    · exact List.mem_cons_self _ _
    · simp
  · intro r' hp'
    exact ⟨ssdpRootDevice_skip r' now (Or.inl hp'),
      ssdpDlnaDevice_skip r' now (Or.inl hp')⟩
  · intro r' u' hp' hip'
    exact ⟨ssdpRootDevice_skip r' now (Or.inr ⟨u', hp', Or.inr hip'⟩),
      ssdpDlnaDevice_skip r' now (Or.inr ⟨u', hp', Or.inr hip'⟩)⟩
  · intro pre post dlna_responses r' hnone
    unfold scan_upnp_devices
    rw [List.filterMap_append, List.filterMap_append, List.filterMap_cons]
    simp [hnone]
  · intro root_responses pre post r' hnone
    unfold scan_upnp_devices
    rw [List.filterMap_append, List.filterMap_append, List.filterMap_cons]
    simp [hnone]

/-- Witness for C8 at a concrete well-formed https response with no
explicit port. -/
theorem C8_ssdp_record_derivation_witness :
    (ssdpRootDevice
        { location := "https://192.168.1.9/desc.xml"
          server := "TestServer/1.0"
          searchTarget := "upnp:rootdevice"
          parsed := some
            { scheme := "https"
              hostStr := some "192.168.1.9"
              hostIp := some "192.168.1.9"
              urlPort := none } } 50).map (fun d => (d.id, d.port)) =
      some ("upnp:192.168.1.9:443", 443)
    ∧ (ssdpDlnaDevice
        { location := "https://192.168.1.9/desc.xml"
          server := "TestServer/1.0"
          searchTarget := "upnp:rootdevice"
          parsed := some
            { scheme := "https"
              hostStr := some "192.168.1.9"
              hostIp := some "192.168.1.9"
              urlPort := none } } 50).map (fun d => (d.id, d.port)) =
      some ("dlna:192.168.1.9:443", 443) := by
  have h := C8_ssdp_record_derivation
    { location := "https://192.168.1.9/desc.xml"
      server := "TestServer/1.0"
      searchTarget := "upnp:rootdevice"
      parsed := some
        { scheme := "https"
          hostStr := some "192.168.1.9"
          hostIp := some "192.168.1.9"
          urlPort := none } }
    { scheme := "https"
      hostStr := some "192.168.1.9"
      hostIp := some "192.168.1.9"
      urlPort := none } "192.168.1.9" "192.168.1.9" rfl rfl rfl 50
  rcases h.1 with ⟨d1, hd1, hport1, hid1, _, _, _, _⟩
  rcases h.2.1 with ⟨d2, hd2, hport2, hid2, _, _, _, _⟩
  constructor
  · rw [hd1]
    have hp1 : d1.port = 443 := by rw [hport1]; rfl
    have hid1' : d1.id = "upnp:192.168.1.9:443" := by
      rw [hid1, hp1]
      rfl
    simp only [Option.map_some']
    rw [hid1', hp1]
  · rw [hd2]
    have hp2 : d2.port = 443 := by rw [hport2]; rfl
    have hid2' : d2.id = "dlna:192.168.1.9:443" := by
      rw [hid2, hp2]
      rfl
    simp only [Option.map_some']
    rw [hid2', hp2]

end Q8Caster
